import Mathlib

/-!
Shallow embedding of `src/console.ts` (nbs-nodejs/nucleo-logger-console):
a winston-backed console logger (`ConsoleLogger`) with metadata
composition (`getMetadata`, `traceError`), a console line formatter
(`handleConsoleFormat` / `stringifyMetadata`) and child loggers
(`createChild`).

JavaScript runtime values reaching the dynamic positions (the
`metadata` field, `info.scope`) are modelled by the tagged type
`JSValue`; JS truthiness by `truthy`.  Strings are Lean `String`s
(the repository only manipulates them via `length`, `padStart`,
`substr` and concatenation, all modelled on the character list).
-/

/-- A JavaScript runtime value, as far as the logger inspects one:
`typeof`, `Array.isArray`, `Object.keys`, truthiness and JSON
serialization.  (`NaN` does not arise in any claim and is omitted;
numbers are integers.) -/
inductive JSValue where
  | undefined : JSValue
  | null : JSValue
  | bool : Bool → JSValue
  | num : Int → JSValue
  | str : String → JSValue
  | arr : List JSValue → JSValue
  | obj : List (String × JSValue) → JSValue
deriving Repr

/-- JavaScript truthiness (`Boolean(v)`): `undefined`, `null`, `false`,
`0` and `""` are falsy; every object or array is truthy. -/
def truthy : JSValue → Bool
  | .undefined => false
  | .null => false
  | .bool b => b
  | .num n => n != 0
  | .str s => !s.isEmpty
  | .arr _ => true
  | .obj _ => true

/-- `v == null` in JS (loose equality): true for `null` and `undefined`. -/
def isNullish : JSValue → Bool
  | .undefined => true
  | .null => true
  | _ => false

/-- JS `String.prototype.padStart(n, c)`: left-pad with `c` up to total
length `n`; a string already at least `n` long is returned unchanged. -/
def padStart (s : String) (n : Nat) (c : Char) : String :=
  String.mk (List.replicate (n - s.length) c) ++ s

/-- JS `String.prototype.substr(0, n)`: the first `n` characters. -/
def strTake (s : String) (n : Nat) : String :=
  String.mk (s.data.take n)

theorem length_padStart (s : String) (n : Nat) (c : Char) :
    (padStart s n c).length = max n s.length := by
  simp only [padStart, String.length_append, String.length_mk,
    List.length_replicate]
  omega

theorem length_strTake (s : String) (n : Nat) :
    (strTake s n).length = min n s.length := by
  simp only [strTake, String.length_mk, List.length_take]
  rfl

example : padStart "abc" 6 ' ' = "   abc" := by decide
example : strTake "abcdef" 3 = "abc" := by decide

/-- Lower-case hexadecimal digit, used by the `\u00XX` escapes of JSON
string serialization. -/
def hexDigit (n : Nat) : String :=
  String.mk [Char.ofNat (if n < 10 then 48 + n else 87 + n)]

/-- How `JSON.stringify` escapes one character inside a string. -/
def jsonEscapeChar (c : Char) : String :=
  if c = '\x22' then "\\\x22"
  else if c = '\\' then "\\\\"
  else if c = '\x08' then "\\b"
  else if c = '\x0c' then "\\f"
  else if c = '\n' then "\\n"
  else if c = '\r' then "\\r"
  else if c = '\t' then "\\t"
  else if c.toNat < 32 then "\\u00" ++ hexDigit (c.toNat / 16) ++ hexDigit (c.toNat % 16)
  else String.mk [c]

/-- A JSON string literal: quoted and escaped. -/
def jsonQuote (s : String) : String :=
  "\x22" ++ String.join (s.data.map jsonEscapeChar) ++ "\x22"

/-- `v` is the JS `undefined` value. -/
def jsIsUndefined : JSValue → Bool
  | .undefined => true
  | _ => false

mutual

/-- Model of `JSON.stringify` on the values reachable from a metadata
argument.  Object members whose value is `undefined` are skipped;
`undefined` occurring as an array element serializes as `null`. -/
def jsonStringify : JSValue → String
  | .undefined => "null"
  | .null => "null"
  | .bool b => if b then "true" else "false"
  | .num n => toString n
  | .str s => jsonQuote s
  | .arr xs => "[" ++ String.intercalate "," (jsonElemStrs xs) ++ "]"
  | .obj kvs => "\x7b" ++ String.intercalate "," (jsonMemberStrs kvs) ++ "\x7d"

/-- Serialized array elements, in order. -/
def jsonElemStrs : List JSValue → List String
  | [] => []
  | x :: xs => jsonStringify x :: jsonElemStrs xs

/-- Serialized `"key":value` members of an object, `undefined` values
skipped. -/
def jsonMemberStrs : List (String × JSValue) → List String
  | [] => []
  | (k, v) :: kvs =>
    if jsIsUndefined v then jsonMemberStrs kvs
    else (jsonQuote k ++ ":" ++ jsonStringify v) :: jsonMemberStrs kvs

end

example : jsonStringify (.obj [("a", .num 1)]) = "\x7b\x22a\x22:1\x7d" := by decide
example : jsonStringify (.arr [.num 1, .str "x"]) = "[1,\x22x\x22]" := by decide

/-! ### `ConsoleLogger` data -/

/-- A JS `Error` value, as far as `traceError` uses one: its `stack`
property (a string, or `undefined` on exotic engines). -/
structure JSError where
  stack : Option String
deriving Repr

/-- `LoggerOption` of `src/console.ts`: the per-call options object.
`error` is absent or an `Error`; `metadata` is typed as an object but
receives arbitrary runtime values, so it is a `JSValue`
(`JSValue.undefined` when the property is absent). -/
structure LoggerOption where
  error : Option JSError
  metadata : JSValue
deriving Repr

/-- `SCOPE_MAX_LEN` of `src/console.ts`. -/
def SCOPE_MAX_LEN : Nat := 18

/-- The state of the underlying winston logger that a `ConsoleLogger`
holds: its configured level, whether the console formatter (rather than
JSON) was installed, the `name` the installed console formatter closure
reads through `this`, and the `scope` injected into every record by
`winston.Logger.child` (none for a root logger). -/
structure WinstonLogger where
  level : String
  formatIsConsole : Bool
  formatName : String
  defaultScope : Option String
deriving Repr

/-- `winston.Logger.child({scope})`: every record logged through the
child carries `scope`; the parent's level and format are shared. -/
def WinstonLogger.child (w : WinstonLogger) (scope : String) : WinstonLogger :=
  { w with defaultScope := some scope }

/-- The fields of a `ConsoleLogger` instance (`name`, `debugMode`, and
the wrapped winston logger). -/
structure ConsoleLogger where
  name : String
  debugMode : Bool
  logger : WinstonLogger
deriving Repr

/-- The constructor's options object. -/
structure CtorOptions where
  name : String
  logLevel : Option String
  format : Option String
  debugMode : Option Bool
  _child : Option WinstonLogger
deriving Repr

/-- The `switch` on `options.logLevel` in the constructor: the four
valid levels pass through, everything else (including an absent level)
becomes `"info"`. -/
def sanitizeLogLevel : Option String → String
  | some s =>
    if s = "debug" ∨ s = "error" ∨ s = "info" ∨ s = "warn" then s else "info"
  | none => "info"

/-- The `ConsoleLogger` constructor.  `debugMode` is
`options.debugMode === true`; when `options._child` is supplied the
wrapped winston logger is that child, otherwise a fresh winston logger
is created with the sanitized level and the chosen format (the console
formatter closes over `this`, whose `name` is `options.name`). -/
def ConsoleLogger.make (options : CtorOptions) : ConsoleLogger :=
  let debugMode := options.debugMode == some true
  let logLevel := sanitizeLogLevel options.logLevel
  match options._child with
  | some c => { name := options.name, debugMode := debugMode, logger := c }
  | none =>
    { name := options.name
      debugMode := debugMode
      logger :=
        { level := logLevel
          formatIsConsole := options.format == some "console"
          formatName := options.name
          defaultScope := none } }

/-- `ConsoleLogger.createChild`: a new `ConsoleLogger` built from only
`name` (the parent's) and `_child` (the winston child tagged with
`scope`); `logLevel`, `format` and `debugMode` are not passed. -/
def ConsoleLogger.createChild (l : ConsoleLogger) (scope : String) : ConsoleLogger :=
  ConsoleLogger.make
    { name := l.name
      logLevel := none
      format := none
      debugMode := none
      _child := some (l.logger.child scope) }

/-! ### Metadata composition (`getMetadata`, `traceError`) -/

/-- `ConsoleLogger.getMetadata`: `null` when `options` is absent or
`options.metadata` is falsy (`!options || !options.metadata`);
otherwise the wrapper object `{metadata: options.metadata}`. -/
def getMetadata (options : Option LoggerOption) : Option JSValue :=
  match options with
  | none => none
  | some o =>
    if !truthy o.metadata then none
    else some (.obj [("metadata", o.metadata)])

/-- The object `traceError` returns in debug mode:
`{stackTrace: options.error.stack, metadata: options.metadata}`. -/
structure TraceResult where
  stackTrace : Option String
  metadata : JSValue
deriving Repr

/-- What a call to `traceError` produces: its return value, and the
caller's `options` object as it stands after the call (the source
assigns `options.metadata` and `options.error` in place, so the
caller-supplied object can be changed; when the caller passed no
options the local `options = ` empty-object assignment is invisible to
the caller, hence `callerOptions = none` stays `none`). -/
structure TraceErrorOut where
  result : Option TraceResult
  callerOptions : Option LoggerOption
deriving Repr

/-- `ConsoleLogger.traceError`.  `fresh` stands for the `new Error()`
synthesized at the call site when no error was supplied.  Returns
`null` when `debugMode` is false; otherwise defaults `options`,
`options.metadata` (to `{}` when falsy) and `options.error` (to
`fresh` when absent) — mutating the caller's object when one was
passed — and returns `{stackTrace, metadata}`. -/
def traceError (debugMode : Bool) (options : Option LoggerOption)
    (fresh : JSError) : TraceErrorOut :=
  if !debugMode then
    { result := none, callerOptions := options }
  else
    let o0 : LoggerOption := options.getD { error := none, metadata := .undefined }
    let o1 : LoggerOption :=
      if !truthy o0.metadata then { o0 with metadata := .obj [] } else o0
    let o2 : LoggerOption :=
      match o1.error with
      | none => { o1 with error := some fresh }
      | some _ => o1
    { result :=
        some { stackTrace := (o2.error.getD fresh).stack, metadata := o2.metadata }
      callerOptions := options.map fun _ => o2 }

/-! ### Console formatting (`handleConsoleFormat`, `stringifyMetadata`) -/

/-- `ConsoleLogger.stringifyMetadata` applied to `info.metadata`:
empty string for nullish values (`m == null`); `" " + m` for a string;
for an array, empty when it has no items and `" " + JSON.stringify(m)`
otherwise; for an object, `" " + JSON.stringify(m)` when it has keys
and empty otherwise; empty for every other `typeof` (number, boolean). -/
def stringifyMetadata (m : JSValue) : String :=
  if isNullish m then ""
  else
    match m with
    | .str s => " " ++ s
    | .arr xs => if xs.length ≤ 0 then "" else " " ++ jsonStringify (.arr xs)
    | .obj kvs => if kvs.length > 0 then " " ++ jsonStringify (.obj kvs) else ""
    | _ => ""

/-- The metadata suffix of the printed line: `stringifyMetadata`
prefixed with `"\n  > [metadata]"` when non-empty (the `if (metadata)`
truthiness test on the string). -/
def metadataSuffix (m : JSValue) : String :=
  let metadata := stringifyMetadata m
  if !metadata.isEmpty then "\n  > [metadata]" ++ metadata else metadata

/-- The stack-trace suffix of the printed line. -/
def stackTraceSuffix : Option String → String
  | some st => "\n  > [stackTrace] " ++ st
  | none => ""

/-- Level column: `info.level.toString().padStart(15, " ")`.  The
argument is the already-colorized level string (winston's
`format.colorize` has run before `printf`), so the pad target of 15
counts the ANSI color characters. -/
def formatLevel (colorizedLevel : String) : String :=
  padStart colorizedLevel 15 ' '

/-- Scope column: `info.scope || this.name`, then truncation to
`SCOPE_MAX_LEN` characters when longer, else left-padding with spaces
to `SCOPE_MAX_LEN`. -/
def formatScope (scope : String) : String :=
  if scope.length > SCOPE_MAX_LEN then strTake scope SCOPE_MAX_LEN
  else padStart scope SCOPE_MAX_LEN ' '

/-- `info.scope || this.name`: the scope when it is a truthy (non-empty)
string, the formatter's `this.name` otherwise. -/
def scopeOrName (scope : Option String) (name : String) : String :=
  match scope with
  | some s => if s.isEmpty then name else s
  | none => name

/-- One record as the `printf` callback sees it after `timestamp` and
`colorize` ran: `level` already carries its color characters; `scope`
is the value injected by a winston child (absent on a root logger). -/
structure LogInfo where
  timestamp : String
  level : String
  message : String
  scope : Option String
  metadata : JSValue
  stackTrace : Option String
deriving Repr

/-- The `printf` body of `handleConsoleFormat`, bound to an instance
whose `this.name = name`: produces the final display line. -/
def handleConsoleFormat (name : String) (info : LogInfo) : String :=
  let metadata := metadataSuffix info.metadata
  let stackTrace := stackTraceSuffix info.stackTrace
  let level := formatLevel info.level
  let scope := formatScope (scopeOrName info.scope name)
  "[" ++ info.timestamp ++ "] " ++ level ++ ": " ++ scope ++ " | "
    ++ info.message ++ metadata ++ stackTrace

/-- The scope column a record logged through `l` gets: records carry no
scope of their own, so the column comes from the winston child's
injected `scope` (or the formatter's bound name). -/
def renderedScopeColumn (l : ConsoleLogger) : String :=
  formatScope (scopeOrName l.logger.defaultScope l.logger.formatName)

/-- Visible width of the level column when the colorized level is
`p ++ label ++ q` with `p`, `q` the color-control characters: the
length of the rendered column minus the zero-width color characters. -/
def levelVisibleWidth (p label q : String) : Nat :=
  (formatLevel (p ++ label ++ q)).length - (p.length + q.length)

/-! ### Helper lemmas -/

theorem isEmpty_eq_false_of_ne_empty (s : String) (h : s ≠ "") :
    s.isEmpty = false := by
  rw [Bool.eq_false_iff]
  intro hc
  exact h ((String.isEmpty_iff s).1 hc)

theorem space_append_isEmpty (s : String) : (" " ++ s).isEmpty = false := by
  rw [Bool.eq_false_iff]
  intro hc
  have h := congrArg String.length ((String.isEmpty_iff _).1 hc)
  rw [String.length_append] at h
  simp only [show (" " : String).length = 1 from rfl,
    show ("" : String).length = 0 from rfl] at h
  omega

/-! ### Claims -/

/-- C3: for every constructor options object whose `logLevel` is absent
or none of `"debug"`, `"info"`, `"warn"`, `"error"` (and which builds a
root logger rather than adopting a prebuilt child), the wrapped winston
logger is configured with level `"info"`. -/
theorem make_invalid_level_is_info (options : CtorOptions)
    (hchild : options._child = none)
    (hlevel : options.logLevel = none ∨
      ∃ s, options.logLevel = some s ∧
        s ≠ "debug" ∧ s ≠ "info" ∧ s ≠ "warn" ∧ s ≠ "error") :
    (ConsoleLogger.make options).logger.level = "info" := by
  have hsan : sanitizeLogLevel options.logLevel = "info" := by
    rcases hlevel with h | ⟨s, hs, h1, h2, h3, h4⟩
    · rw [h]; rfl
    · rw [hs]
      simp [sanitizeLogLevel, h1, h2, h3, h4]
  simp [ConsoleLogger.make, hchild, hsan]

/-- Witness for C3: the invalid level `"verbose"` yields level `"info"`. -/
theorem make_invalid_level_is_info_witness :
    (ConsoleLogger.make
      { name := "svc", logLevel := some "verbose", format := none,
        debugMode := none, _child := none }).logger.level = "info" :=
  make_invalid_level_is_info _ rfl
    (Or.inr ⟨"verbose", rfl, by decide, by decide, by decide, by decide⟩)

/-- C5: with `debugMode` false, `traceError` returns `null` for every
options object — error present or absent, metadata present or absent. -/
theorem traceError_production_none (options : Option LoggerOption)
    (fresh : JSError) :
    (traceError false options fresh).result = none := rfl

/-- C6: the scope column is the first `SCOPE_MAX_LEN = 18` characters of
the scope when it is longer than 18, and the scope left-padded with
spaces to 18 otherwise; either way the column is exactly 18 characters
wide. -/
theorem formatScope_spec (s : String) :
    (s.length > SCOPE_MAX_LEN → formatScope s = strTake s SCOPE_MAX_LEN) ∧
    (s.length ≤ SCOPE_MAX_LEN → formatScope s = padStart s SCOPE_MAX_LEN ' ') ∧
    (formatScope s).length = SCOPE_MAX_LEN := by
  refine ⟨fun h => ?_, fun h => ?_, ?_⟩
  · simp only [formatScope]
    rw [if_pos h]
  · simp only [formatScope]
    rw [if_neg (by omega)]
  · simp only [formatScope]
    by_cases h : s.length > SCOPE_MAX_LEN
    · rw [if_pos h, length_strTake]
      revert h
      unfold SCOPE_MAX_LEN
      omega
    · rw [if_neg h, length_padStart]
      revert h
      unfold SCOPE_MAX_LEN
      omega

/-- Witness for C6: the spec's own examples — a 3-character scope is
left-padded to 18, a 25-character scope is truncated to its first 18
characters. -/
theorem formatScope_spec_witness :
    formatScope "abc" = padStart "abc" SCOPE_MAX_LEN ' ' ∧
    formatScope "abcdefghijklmnopqrstuvwxy" =
      strTake "abcdefghijklmnopqrstuvwxy" SCOPE_MAX_LEN ∧
    formatScope "abc" = "               abc" :=
  ⟨(formatScope_spec "abc").2.1 (by decide),
   (formatScope_spec "abcdefghijklmnopqrstuvwxy").1 (by decide),
   by decide⟩

theorem metadata_label_append (s : String) :
    "\n  > [metadata]" ++ (" " ++ s) = "\n  > [metadata] " ++ s := by
  rw [← String.append_assoc]
  exact congrArg (· ++ s) (by decide)

/-- C4 counterexample: the empty string is a present, non-nullish
metadata value, yet `getMetadata` returns `null` for it rather than the
wrapper `{metadata: ""}` — `!options.metadata` tests JS truthiness, not
presence. -/
theorem getMetadata_empty_string_counterexample :
    getMetadata (some { error := none, metadata := JSValue.str "" }) = none ∧
    isNullish (JSValue.str "") = false ∧
    getMetadata (some { error := none, metadata := JSValue.str "" }) ≠
      some (JSValue.obj [("metadata", JSValue.str "")]) :=
  ⟨rfl, rfl, fun h => Option.noConfusion h⟩

/-- C4 amended: `getMetadata` returns `null` exactly when `options` is
absent or `options.metadata` is falsy (absent, `null`, `false`, `0`, or
the empty string); for every truthy metadata value `X` — including the
empty object and the empty array — it returns the wrapper
`{metadata: X}`. -/
theorem getMetadata_spec (options : Option LoggerOption) :
    (getMetadata options = none ↔
      options = none ∨ ∃ o, options = some o ∧ truthy o.metadata = false) ∧
    ∀ o, options = some o → truthy o.metadata = true →
      getMetadata options = some (JSValue.obj [("metadata", o.metadata)]) := by
  cases options with
  | none =>
    refine ⟨by simp [getMetadata], ?_⟩
    intro o h
    exact absurd h (by simp)
  | some o =>
    refine ⟨?_, ?_⟩
    · cases h : truthy o.metadata <;> simp [getMetadata, h]
    · intro o2 ho ht
      injection ho with ho2
      subst ho2
      simp [getMetadata, ht]

/-- Witness for C4's amended claim: the empty object is truthy and gets
wrapped. -/
theorem getMetadata_spec_witness :
    getMetadata (some { error := none, metadata := JSValue.obj [] }) =
      some (JSValue.obj [("metadata", JSValue.obj [])]) :=
  (getMetadata_spec _).2 { error := none, metadata := JSValue.obj [] } rfl rfl

/-- C7: the metadata suffix of a printed line is empty for absent
(`undefined`/`null`), empty-object and empty-array metadata; it is
`"\n  > [metadata] "` followed by the string itself for string
metadata, and `"\n  > [metadata] "` followed by the JSON serialization
for non-empty objects and non-empty arrays. -/
theorem metadataSuffix_spec :
    metadataSuffix JSValue.undefined = "" ∧
    metadataSuffix JSValue.null = "" ∧
    metadataSuffix (JSValue.obj []) = "" ∧
    metadataSuffix (JSValue.arr []) = "" ∧
    (∀ s, metadataSuffix (JSValue.str s) = "\n  > [metadata] " ++ s) ∧
    (∀ kvs, kvs ≠ [] → metadataSuffix (JSValue.obj kvs) =
      "\n  > [metadata] " ++ jsonStringify (JSValue.obj kvs)) ∧
    (∀ xs, xs ≠ [] → metadataSuffix (JSValue.arr xs) =
      "\n  > [metadata] " ++ jsonStringify (JSValue.arr xs)) := by
  refine ⟨rfl, rfl, rfl, rfl, fun s => ?_, fun kvs hk => ?_, fun xs hx => ?_⟩
  · simp only [metadataSuffix, stringifyMetadata, isNullish,
      space_append_isEmpty, Bool.not_false, if_true]
    exact metadata_label_append s
  · match kvs, hk with
    | (k, v) :: kvs, _ =>
      simp only [metadataSuffix, stringifyMetadata, isNullish,
        List.length_cons, Nat.succ_sub_one, gt_iff_lt, Nat.zero_lt_succ,
        if_true, space_append_isEmpty, Bool.not_false]
      exact metadata_label_append _
  · match xs, hx with
    | x :: xs, _ =>
      simp only [metadataSuffix, stringifyMetadata, isNullish,
        List.length_cons, Nat.le_zero, space_append_isEmpty, Bool.not_false,
        if_true]
      exact metadata_label_append _

/-- Witness for C7: the spec's examples, with non-empty object and
array metadata instantiated concretely. -/
theorem metadataSuffix_spec_witness :
    metadataSuffix (JSValue.str "hello") = "\n  > [metadata] " ++ "hello" ∧
    metadataSuffix (JSValue.obj [("a", JSValue.num 1)]) =
      "\n  > [metadata] " ++ jsonStringify (JSValue.obj [("a", JSValue.num 1)]) ∧
    metadataSuffix (JSValue.arr [JSValue.num 1]) =
      "\n  > [metadata] " ++ jsonStringify (JSValue.arr [JSValue.num 1]) :=
  ⟨metadataSuffix_spec.2.2.2.2.1 "hello",
   metadataSuffix_spec.2.2.2.2.2.1 _ (List.cons_ne_nil _ _),
   metadataSuffix_spec.2.2.2.2.2.2 _ (List.cons_ne_nil _ _)⟩

/-- The in-place default-filling `traceError` performs on a supplied
options object in debug mode: a falsy `metadata` becomes `{}`, an
absent `error` becomes the freshly constructed one. -/
def fillDefaults (o : LoggerOption) (fresh : JSError) : LoggerOption :=
  { error := match o.error with
      | none => some fresh
      | some e => some e
    metadata := if !truthy o.metadata then JSValue.obj [] else o.metadata }

/-- C2 counterexample: with `debugMode` true and a caller-supplied
options object carrying neither `error` nor `metadata`, `traceError`
overwrites both fields of the caller's object. -/
theorem traceError_mutates_counterexample :
    (traceError true (some { error := none, metadata := JSValue.undefined })
        { stack := some "Error" }).callerOptions =
      some { error := some { stack := some "Error" },
             metadata := JSValue.obj [] } ∧
    (traceError true (some { error := none, metadata := JSValue.undefined })
        { stack := some "Error" }).callerOptions ≠
      some { error := none, metadata := JSValue.undefined } := by
  refine ⟨rfl, fun h => ?_⟩
  have h2 : some ({ stack := some "Error" } : JSError) = none :=
    congrArg (fun x => (x.getD { error := none, metadata := JSValue.undefined }).error) h
  exact Option.noConfusion h2

/-- C2 amended: `traceError` leaves the caller's options object
unchanged whenever `debugMode` is false (and when no options object was
passed there is nothing to change); but when `debugMode` is true it
fills the missing fields of the caller-supplied object in place — a
falsy `metadata` is overwritten with `{}` and an absent `error` with
the freshly synthesized one. -/
theorem traceError_callerOptions (debugMode : Bool)
    (options : Option LoggerOption) (fresh : JSError) :
    (traceError debugMode options fresh).callerOptions =
      if debugMode then options.map (fun o => fillDefaults o fresh)
      else options := by
  cases debugMode with
  | false => rfl
  | true =>
    cases options with
    | none => rfl
    | some o =>
      obtain ⟨e, m⟩ := o
      cases hm : truthy m <;> cases e <;>
        simp [traceError, fillDefaults, hm]

/-- C9 counterexample: a child created with the empty scope string does
not render its scope column from that string — `info.scope || this.name`
treats `""` as absent, so the column falls back to the configured name. -/
theorem createChild_scope_counterexample :
    renderedScopeColumn ((ConsoleLogger.make
        { name := "svc", logLevel := none, format := some "console",
          debugMode := none, _child := none }).createChild "") =
      formatScope "svc" ∧
    renderedScopeColumn ((ConsoleLogger.make
        { name := "svc", logLevel := none, format := some "console",
          debugMode := none, _child := none }).createChild "") ≠
      formatScope "" :=
  ⟨by decide, by decide⟩

/-- C9 amended: for every parent logger and every non-empty scope
string `s`, records logged through `createChild s` render their scope
column from `s` (padded/truncated per the 18-character rule), not from
the parent's name; the empty scope string instead falls back to the
configured name. -/
theorem createChild_scope_spec (l : ConsoleLogger) (s : String)
    (hs : s ≠ "") :
    renderedScopeColumn (l.createChild s) = formatScope s := by
  simp only [renderedScopeColumn, ConsoleLogger.createChild,
    ConsoleLogger.make, WinstonLogger.child, scopeOrName]
  rw [isEmpty_eq_false_of_ne_empty s hs]
  simp

/-- Witness for C9's amended claim: the spec's child-logger scenario,
`createChild "worker"` on a logger named `"svc"`. -/
theorem createChild_scope_spec_witness :
    renderedScopeColumn ((ConsoleLogger.make
        { name := "svc", logLevel := none, format := some "console",
          debugMode := none, _child := none }).createChild "worker") =
      formatScope "worker" :=
  createChild_scope_spec _ "worker" (by decide)

/-- C10: `createChild` does not propagate `debugMode` (it passes only
`name` and `_child` to the constructor, whose `options.debugMode === true`
test then yields false), so `traceError` on any child — hence any
`error()` call on it — returns `null` and never attaches a stack trace
or synthesized metadata. -/
theorem createChild_debugMode_false (l : ConsoleLogger) (s : String)
    (options : Option LoggerOption) (fresh : JSError) :
    (l.createChild s).debugMode = false ∧
    (traceError (l.createChild s).debugMode options fresh).result = none := by
  have h : (l.createChild s).debugMode = false := rfl
  exact ⟨h, by rw [h]; rfl⟩

/-- C1 counterexample: with winston's actual ANSI color wrapping for
the `info` level (`\x1b[32m` … `\x1b[39m`, ten zero-width characters),
the level column's visible width is 5, not 15 — `padStart(15)` runs
after colorize and counts the color characters. -/
theorem levelVisibleWidth_counterexample :
    levelVisibleWidth "\x1b[32m" "info" "\x1b[39m" = 5 ∧
    levelVisibleWidth "\x1b[32m" "info" "\x1b[39m" ≠ 15 :=
  ⟨by decide, by decide⟩

/-- C1 amended: the level column is the colorized level string
right-aligned in a field whose TOTAL width — color-control characters
counted — is exactly 15 (whenever the colorized string fits in 15
characters); the visible width is therefore 15 minus the number of
color-control characters, and equals 15 only when no color characters
surround the label. -/
theorem formatLevel_total_width (p q : String)
    (h : (p ++ "info" ++ q).length ≤ 15) :
    (formatLevel (p ++ "info" ++ q)).length = 15 ∧
    levelVisibleWidth p "info" q = 15 - (p.length + q.length) := by
  constructor
  · simp only [formatLevel]
    rw [length_padStart]
    omega
  · simp only [levelVisibleWidth, formatLevel]
    rw [length_padStart]
    omega

/-- Witness for C1's amended claim, at winston's color codes for
`info`: total width 15, visible width 15 − 10 = 5. -/
theorem formatLevel_total_width_witness :
    (formatLevel ("\x1b[32m" ++ "info" ++ "\x1b[39m")).length = 15 ∧
    levelVisibleWidth "\x1b[32m" "info" "\x1b[39m" =
      15 - (("\x1b[32m" : String).length + ("\x1b[39m" : String).length) :=
  formatLevel_total_width "\x1b[32m" "\x1b[39m" (by decide)
